import Mathlib

/-!
Verification development for `src/examples/gastown/polecat_wrapper.py`.

The Python script is shallowly embedded below.  Python strings are Lean
`String`s operated on through their code-point lists (Python `str` indexing,
slicing, `len`, `lower`, `strip` and the `in` substring test are all
code-point based, so the embeddings below work on `String.data`).  JSON
values decoded by `json.loads` are modelled by the inductive type `JsonVal`;
JSON numbers (Python `int`/`float`) are modelled as rationals, which is
faithful for every numeric literal actually handled by the claims (`0`,
`0.0`, `2`).  External processes (`vc`, `bd`, `git`, `gm`) are modelled by
environments recording the observable outcome of each command the script
inspects, and each function additionally returns the trace of external
commands it issued.  A command the script never inspects (the trailing
`git checkout` calls, `git push`, the `gm` call) is modelled as performing
its effect; the failure points modelled are exactly the ones the code
branches on (`check=True` raises, `try/except` blocks, `returncode` tests).
Python exceptions are modelled by `Except` with the error taxonomy `PyErr`.
-/

/-! ## Python string primitives (code-point based) -/

/-- Auxiliary scan for the Python `in` substring test: does `needle` occur
as a contiguous run inside the list? -/
def containsAux (needle : List Char) : List Char → Bool
  | [] => needle.isEmpty
  | c :: rest => needle.isPrefixOf (c :: rest) || containsAux needle rest

/-- Python `needle in haystack` on strings (substring containment). -/
def strContains (haystack needle : String) : Bool :=
  containsAux needle.data haystack.data

/-- Python `str.lower()` (ASCII letters; the keyword lists in the source are
all ASCII, so `Char.toLower` per code point is faithful there). -/
def pyLower (s : String) : String :=
  String.mk (s.data.map Char.toLower)

/-- Python `str.strip()`: remove leading and trailing whitespace. -/
def pyStrip (s : String) : String :=
  String.mk (((s.data.dropWhile Char.isWhitespace).reverse.dropWhile
    Char.isWhitespace).reverse)

/-- Python `len` on a string (number of code points). -/
def pyLen (s : String) : Nat := s.data.length

/-- Python slice `s[:n]` (first `n` code points). -/
def pyTake (s : String) (n : Nat) : String := String.mk (s.data.take n)

/-- Python `s.startswith(c)` for the one-character prefix used by the
source, `'\x7b'` (the opening curly brace). -/
def startsWithBrace (s : String) : Bool :=
  match s.data with
  | c :: _ => c = '\x7b'
  | [] => false

/-! ## JSON values (output of `json.loads`) -/

/-- Values produced by Python `json.loads`: `None`, booleans, numbers
(ints and floats collapsed into rationals), strings, lists, dicts. -/
inductive JsonVal where
  | null
  | bool (b : Bool)
  | num (q : Rat)
  | str (s : String)
  | arr (elems : List JsonVal)
  | obj (fields : List (String × JsonVal))
deriving Repr

/-- Python truthiness (`if x:`) of a decoded JSON value: `None`, `False`,
zero, the empty string, the empty list and the empty dict are falsy. -/
def pyTruthy : JsonVal → Bool
  | JsonVal.null => false
  | JsonVal.bool b => b
  | JsonVal.num q => q != 0
  | JsonVal.str s => s != ""
  | JsonVal.arr xs => !xs.isEmpty
  | JsonVal.obj kvs => !kvs.isEmpty

/-- Python `x == some_string` for a decoded JSON value: only a `str` value
can compare equal to a string literal. -/
def pyEqStr (v : JsonVal) (s : String) : Bool :=
  match v with
  | JsonVal.str t => t == s
  | _ => false

/-- Python `dict.get(k)` on a decoded JSON object (first binding wins;
`json.loads` produces unique keys). -/
def dictLookup (data : List (String × JsonVal)) (k : String) : Option JsonVal :=
  match data.find? (fun p => p.1 == k) with
  | some p => some p.2
  | none => none

/-- Python `dict.get(k, dflt)` on a decoded JSON object. -/
def dictGet (data : List (String × JsonVal)) (k : String) (dflt : JsonVal) : JsonVal :=
  match dictLookup data k with
  | some v => v
  | none => dflt

/-- Python truthiness of an `Optional[str]` parameter (`None` and `''` are
falsy). -/
def optTruthy : Option String → Bool
  | none => false
  | some s => s != ""

/-! ## Result model (`PolecatResult`) -/

/-- Embedding of the `PolecatResult` dataclass.  The Python constructor
stores whatever value `dict.get` returned, without validating its type, so
every field is a raw `JsonVal` (`None` is `JsonVal.null`). -/
structure PolecatResult where
  status : JsonVal
  success : JsonVal
  iterations : JsonVal
  converged : JsonVal
  duration_seconds : JsonVal
  files_modified : JsonVal
  quality_gates : JsonVal
  discovered_issues : JsonVal
  punted_items : JsonVal
  summary : JsonVal
  error : JsonVal
  message : JsonVal
  decomposition : JsonVal
deriving Repr

/-- Embedding of `PolecatResult.from_json` (lines 56-73): one `data.get`
per field, with the defaults of the source. -/
def PolecatResult.from_json (data : List (String × JsonVal)) : PolecatResult :=
  { status := dictGet data "status" (JsonVal.str "unknown")
    success := dictGet data "success" (JsonVal.bool false)
    iterations := dictGet data "iterations" (JsonVal.num 0)
    converged := dictGet data "converged" (JsonVal.bool false)
    duration_seconds := dictGet data "duration_seconds" (JsonVal.num 0)
    files_modified := dictGet data "files_modified" (JsonVal.arr [])
    quality_gates := dictGet data "quality_gates" (JsonVal.obj [])
    discovered_issues := dictGet data "discovered_issues" (JsonVal.arr [])
    punted_items := dictGet data "punted_items" (JsonVal.arr [])
    summary := dictGet data "summary" (JsonVal.str "")
    error := dictGet data "error" JsonVal.null
    message := dictGet data "message" JsonVal.null
    decomposition := dictGet data "decomposition" JsonVal.null }

/-! ## Error taxonomy -/

/-- Python exceptions the script can raise or observe.  The three
`RuntimeError`s raised by `run_vc` are distinguished by their message
pattern, matching the spec taxonomy.  `data.get` on a non-dict raises
`AttributeError`; a non-string argv element raises `TypeError` inside
`subprocess.run`; a `check=True` command failure raises
`CalledProcessError` (carrying the failing command). -/
inductive PyErr where
  | agentUnavailable
  | agentExecutionFailed (stderr : String)
  | invalidAgentOutput (excerpt : String)
  | attributeError
  | typeError
  | calledProcessError (cmd : List String)
deriving Repr, DecidableEq

/-- Python `json.loads(stdout)` applied in `run_vc` may yield a non-dict
value; `PolecatResult.from_json` then calls `.get` on it, which raises
`AttributeError`.  Only a JSON object constructs a result. -/
def PolecatResult.from_json_value : JsonVal → Except PyErr PolecatResult
  | JsonVal.obj kvs => Except.ok (PolecatResult.from_json kvs)
  | _ => Except.error PyErr.attributeError

/-! ## Mode selector (`should_use_lite_mode`, lines 76-132) -/

/-- Keywords that indicate simple tasks (lines 96-108). -/
def lite_keywords : List String :=
  ["typo", "fix comment", "update readme", "rename", "fix spelling",
   "add comment", "remove comment", "whitespace", "formatting",
   "capitalize", "punctuation"]

/-- Complexity indicators checked for short tasks (lines 117-126). -/
def complexity_indicators : List String :=
  ["implement", "refactor", "redesign", "integrate", "migrate",
   "add feature", "security", "authentication"]

/-- Embedding of `should_use_lite_mode`: any lite keyword in the lowered
text returns `true` at once; otherwise a task shorter than 50 code points
returns `true` unless it contains a complexity indicator; longer tasks
return `false`.  The two Python `for` loops are `List.any`. -/
def should_use_lite_mode (task : String) : Bool :=
  if lite_keywords.any (fun k => strContains (pyLower task) k) then
    true
  else if pyLen task < 50 then
    if complexity_indicators.any (fun k => strContains (pyLower task) k) then
      false
    else
      true
  else
    false

/-! ## Agent invoker (`run_vc`, lines 135-212) -/

/-- Observable outcome of the one `vc` subprocess invocation: whether the
executable exists, its exit status, its captured stdout/stderr text, and
the result of `json.loads` on the stdout (`none` models
`json.JSONDecodeError`). -/
structure AgentEnv where
  vcFound : Bool
  returncode : Int
  stdout : String
  stderrText : String
  jsonParse : Option JsonVal

/-- Lite-mode resolution at the top of `run_vc` (lines 163-165):
`use_lite = force_lite or lite_mode`, then the heuristic when the task text
is truthy. -/
def use_lite_flag (task : String) (lite_mode force_lite : Bool) : Bool :=
  let u := force_lite || lite_mode
  if !u && task != "" then should_use_lite_mode task else u

/-- Command line built by `run_vc` (lines 160-175): base command, optional
`--lite`, then exactly one targeting mode (issue id over stdin over literal
task). -/
def build_cmd (task : String) (issue_id : Option String)
    (from_stdin lite_mode force_lite : Bool) : List String :=
  let b1 := ["vc", "exec", "--polecat-mode"]
  let b2 := if use_lite_flag task lite_mode force_lite then b1 ++ ["--lite"] else b1
  if optTruthy issue_id then b2 ++ ["--issue", issue_id.getD ""]
  else if from_stdin then b2 ++ ["--stdin"]
  else b2 ++ ["--task", task]

/-- Embedding of `run_vc` (lines 180-212).  `FileNotFoundError` becomes the
`AgentUnavailable` runtime error; a non-zero exit whose stripped stdout
does not start with an opening brace becomes `AgentExecutionFailed`
carrying the stderr text; a `json.loads` failure becomes
`InvalidAgentOutput` carrying the first 500 code points of stdout; a
decoded non-object raises `AttributeError` inside `from_json`. -/
def run_vc (env : AgentEnv) (task : String) (issue_id : Option String)
    (from_stdin lite_mode force_lite : Bool) : Except PyErr PolecatResult :=
  if !env.vcFound then Except.error PyErr.agentUnavailable
  else if env.returncode != 0 && !(startsWithBrace (pyStrip env.stdout)) then
    Except.error (PyErr.agentExecutionFailed env.stderrText)
  else
    match env.jsonParse with
    | none => Except.error (PyErr.invalidAgentOutput (pyTake env.stdout 500))
    | some v => PolecatResult.from_json_value v

/-! ## Issue publisher (`create_discovered_issues`, lines 215-267) -/

/-- Observable outcome of one `bd create` invocation. -/
structure BdResp where
  returncode : Int
  stdout : String

/-- External calls issued by the script, in order.  `vc` and `git` entries
record the argv list; a `bd` entry records the payload of the creation
request (title, type, priority, description as raw decoded values); a `gm`
entry records the reply target, the status word and the raw summary value
(argv rendering of these payloads is incidental formatting). -/
inductive ExtCall where
  | vc (cmd : List String)
  | bd (title itype priority description : JsonVal)
  | git (cmd : List String)
  | gm (message_id status_word : String) (summary : JsonVal)
deriving Repr

/-- Character class of the id pattern `[a-z0-9]`. -/
def idChar (c : Char) : Bool :=
  ('a' ≤ c && c ≤ 'z') || ('0' ≤ c && c ≤ '9')

/-- Leftmost match of the pattern `vc-[a-z0-9]+` (the `re.search` on line
261): at each position, the literal `vc-` followed by a maximal nonempty
run of id characters; otherwise move one position right. -/
def find_vc_id : List Char → Option String
  | [] => none
  | c :: rest =>
    if c = 'v' then
      match rest with
      | 'c' :: '-' :: rest2 =>
        let run := rest2.takeWhile idChar
        if run.isEmpty then find_vc_id rest
        else some (String.mk ('v' :: 'c' :: '-' :: run))
      | _ => find_vc_id rest
    else find_vc_id rest

/-- Ids appended for one successful `bd` call (lines 256-263): exit code
zero, the stripped output mentions `Created` or `vc-`, and the id pattern
matches. -/
def bd_response_ids (resp : BdResp) : List String :=
  if resp.returncode == 0 then
    if strContains (pyStrip resp.stdout) "Created" ||
       strContains (pyStrip resp.stdout) "vc-" then
      match find_vc_id (pyStrip resp.stdout).data with
      | some id => [id]
      | none => []
    else []
  else []

/-- Python iteration `for issue in x` over a decoded JSON value: lists
yield their elements, strings their one-character substrings, dicts their
keys; other values raise `TypeError`. -/
def pyIterate : JsonVal → Except PyErr (List JsonVal)
  | JsonVal.arr xs => Except.ok xs
  | JsonVal.str s => Except.ok (s.data.map fun c => JsonVal.str (String.mk [c]))
  | JsonVal.obj kvs => Except.ok (kvs.map fun p => JsonVal.str p.1)
  | _ => Except.error PyErr.typeError

/-- Does a decoded value pass as a `subprocess.run` argv element?  Only
strings do; anything else raises `TypeError` when the command is spawned. -/
def strArg : JsonVal → Bool
  | JsonVal.str _ => true
  | _ => false

/-- Environment for one whole orchestration run: the `vc` outcome, whether
`bd` and `gm` are installed, the outcome of the n-th `bd create` call, and
the git environment defined below. -/
structure GitEnv where
  branch0 : String
  addOk : Bool
  commitOutcome : Option String
  checkoutMainOk : Bool
  mergeOk : Bool
  pushOk : Bool

/-- Loop body of `create_discovered_issues` (lines 228-266) over the
already-obtained list of entries, threading the index of the next `bd`
call.  A non-dict entry raises `AttributeError` at `issue.get`; a non-string
title/type (or truthy non-string description) raises `TypeError` before any
process is spawned; a missing `bd` executable is caught and skipped; ids
are collected in order.  An error discards the ids collected so far, as the
propagating exception does in Python. -/
def create_issues_loop (bdFound : Bool) (bdResp : Nat → BdResp) :
    List JsonVal → Nat → Except PyErr (List String) × List ExtCall
  | [], _ => (Except.ok [], [])
  | issue :: rest, n =>
    match issue with
    | JsonVal.obj kvs =>
      let title := dictGet kvs "title" (JsonVal.str "Discovered issue")
      let description := dictGet kvs "description" (JsonVal.str "")
      let itype := dictGet kvs "type" (JsonVal.str "task")
      let priority := dictGet kvs "priority" (JsonVal.num 2)
      if strArg title && strArg itype &&
         (!(pyTruthy description) || strArg description) then
        let call := ExtCall.bd title itype priority description
        if bdFound then
          let ids := bd_response_ids (bdResp n)
          match create_issues_loop bdFound bdResp rest (n + 1) with
          | (Except.ok restIds, tr) => (Except.ok (ids ++ restIds), call :: tr)
          | (Except.error e, tr) => (Except.error e, call :: tr)
        else
          match create_issues_loop bdFound bdResp rest (n + 1) with
          | (res, tr) => (res, call :: tr)
      else
        (Except.error PyErr.typeError, [])
    | _ => (Except.error PyErr.attributeError, [])

/-- Embedding of `create_discovered_issues` (lines 215-267): iterate the
raw `discovered_issues` value and run the loop. -/
def create_discovered_issues (bdFound : Bool) (bdResp : Nat → BdResp)
    (result : PolecatResult) : Except PyErr (List String) × List ExtCall :=
  match pyIterate result.discovered_issues with
  | Except.error e => (Except.error e, [])
  | Except.ok issues => create_issues_loop bdFound bdResp issues 0

/-! ## Repository committer (`commit_and_merge`, lines 270-346) -/

/-- Result of one `commit_and_merge` run: the Python return (or the
propagating exception), the trace of git commands issued, and the branch
checked out when control leaves the function.  The `GitEnv` fields give the
outcome of each command the code inspects: `addOk` for `git add -A`
(`check=True`), `commitOutcome` as `none` for a successful commit or
`some stderr` for a `CalledProcessError` with that stderr, `checkoutMainOk`
for `git checkout main` (`check=True`), `mergeOk` for `git merge`, and
`pushOk` for `git push` — whose failure the code catches and only warns
about, so the field is observably inert, exactly as in the source.
`git rev-parse` reports the branch current at that point, and the two
trailing `git checkout` calls (whose outcome the code never inspects) are
modelled as switching the branch. -/
structure GitRun where
  ret : Except PyErr Bool
  trace : List (List String)
  branch : String
deriving Repr

/-- Commit message built on lines 294-296: fixed prefix plus the first 50
code points of the task, with an ellipsis when the task was longer. -/
def commit_msg_of (task : String) : String :=
  let m := "VC: " ++ pyTake task 50
  if pyLen task > 50 then m ++ "..." else m

/-- Embedding of `commit_and_merge` (lines 270-346). -/
def commit_and_merge (env : GitEnv) (task : String) (result : PolecatResult) :
    GitRun :=
  if !(pyTruthy result.files_modified) then
    { ret := Except.ok true, trace := [], branch := env.branch0 }
  else
    let addCmd := ["git", "add", "-A"]
    if !env.addOk then
      { ret := Except.error (PyErr.calledProcessError addCmd),
        trace := [addCmd], branch := env.branch0 }
    else
      let commitCmd := ["git", "commit", "-m", commit_msg_of task]
      match env.commitOutcome with
      | some stderr =>
        if strContains stderr "nothing to commit" then
          { ret := Except.ok true, trace := [addCmd, commitCmd],
            branch := env.branch0 }
        else
          { ret := Except.error (PyErr.calledProcessError commitCmd),
            trace := [addCmd, commitCmd], branch := env.branch0 }
      | none =>
        let current := env.branch0
        let t4 := [addCmd, commitCmd,
                   ["git", "rev-parse", "--abbrev-ref", "HEAD"],
                   ["git", "checkout", "main"]]
        if !env.checkoutMainOk then
          { ret := Except.error (PyErr.calledProcessError ["git", "checkout", "main"]),
            trace := t4, branch := env.branch0 }
        else
          let t5 := t4 ++ [["git", "merge", current]]
          if !env.mergeOk then
            { ret := Except.ok false,
              trace := t5 ++ [["git", "checkout", current]],
              branch := current }
          else
            { ret := Except.ok true,
              trace := t5 ++ [["git", "push", "origin", "main"],
                              ["git", "checkout", current]],
              branch := current }

/-! ## Notifier (`send_gm_reply`, lines 349-368) and orchestrator
(`handle_task`, lines 371-433) -/

/-- Embedding of `send_gm_reply`: no-op on a falsy message id; otherwise
one `gm` call whose failure modes (`FileNotFoundError`, non-zero exit) the
code absorbs, so the function never raises and returns only its trace. -/
def send_gm_reply (message_id : Option String) (status_word : String)
    (summary : JsonVal) : List ExtCall :=
  if !(optTruthy message_id) then []
  else [ExtCall.gm (message_id.getD "") status_word summary]

/-- Environment for one whole `handle_task` run. -/
structure OrchEnv where
  agent : AgentEnv
  bdFound : Bool
  bdResp : Nat → BdResp
  git : GitEnv

/-- Embedding of `handle_task` (lines 371-433): run the agent, then —
each step only when not in dry-run mode — create discovered issues when
the raw `discovered_issues` value is truthy, commit and merge when
`success` is truthy and `status` equals `completed`, and reply when a
message id is given.  The function returns the agent result (or the first
propagating exception) together with the full trace of external calls. -/
def handle_task (env : OrchEnv) (task : String) (issue_id : Option String)
    (from_stdin lite_mode : Bool) (message_id : Option String)
    (dry_run : Bool) : Except PyErr PolecatResult × List ExtCall :=
  let tr0 := [ExtCall.vc (build_cmd task issue_id from_stdin lite_mode false)]
  match run_vc env.agent task issue_id from_stdin lite_mode false with
  | Except.error e => (Except.error e, tr0)
  | Except.ok result =>
    match
      (if pyTruthy result.discovered_issues && !dry_run then
        create_discovered_issues env.bdFound env.bdResp result
      else (Except.ok [], [])) with
    | (Except.error e, tr2) => (Except.error e, tr0 ++ tr2)
    | (Except.ok _, tr2) =>
      match
        (if pyTruthy result.success && pyEqStr result.status "completed"
            && !dry_run then
          let g := commit_and_merge env.git task result
          (g.ret, g.trace.map ExtCall.git)
        else (Except.ok false, [])) with
      | (Except.error e, tr3) => (Except.error e, tr0 ++ tr2 ++ tr3)
      | (Except.ok _, tr3) =>
        let tr4 :=
          if optTruthy message_id && !dry_run then
            send_gm_reply message_id
              (if pyTruthy result.success then "completed" else "failed")
              (if pyTruthy result.summary then result.summary
               else JsonVal.str "No summary available")
          else []
        (Except.ok result, tr0 ++ tr2 ++ tr3 ++ tr4)

/-- Process exit status of `main` (lines 497-538): 0 when the result's
`success` field is truthy, 1 when it is falsy, and 1 on every propagating
exception (`RuntimeError` is caught and reported with status 1; any other
uncaught exception terminates the interpreter with status 1 as well). -/
def exit_code (r : Except PyErr PolecatResult) : Int :=
  match r with
  | Except.ok result => if pyTruthy result.success then 0 else 1
  | Except.error _ => 1

/-! ## Concrete example environments used by witnesses -/

/-- Agent outcome of a successful run: exit 0, stdout carrying the JSON
object that `jsonParse` decodes. -/
def agent_env_ok : AgentEnv :=
  { vcFound := true
    returncode := 0
    stdout := "\x7b\"status\": \"completed\", \"success\": true, \"files_modified\": [\"README.md\"], \"summary\": \"fixed typo\"\x7d"
    stderrText := ""
    jsonParse := some (JsonVal.obj
      [("status", JsonVal.str "completed"),
       ("success", JsonVal.bool true),
       ("files_modified", JsonVal.arr [JsonVal.str "README.md"]),
       ("summary", JsonVal.str "fixed typo")]) }

/-- Orchestration environment where every external tool behaves. -/
def orch_env_ok : OrchEnv :=
  { agent := agent_env_ok
    bdFound := true
    bdResp := fun _ => { returncode := 0, stdout := "Created issue: vc-ab12" }
    git := { branch0 := "gastown-polecat", addOk := true, commitOutcome := none,
             checkoutMainOk := true, mergeOk := true, pushOk := true } }

/-- Orchestration environment identical to `orch_env_ok` except that
`git add -A` fails. -/
def orch_env_add_fails : OrchEnv :=
  { orch_env_ok with
    git := { branch0 := "gastown-polecat", addOk := false, commitOutcome := none,
             checkoutMainOk := true, mergeOk := true, pushOk := true } }

/-! ## Mode selector claims -/

/-- C9: for every task string containing a trivial-edit keyword as a
case-insensitive substring (i.e. the keyword occurs in the lowered text),
`should_use_lite_mode` returns `true` (LITE), regardless of the string's
length or any other content. -/
theorem should_use_lite_mode_trivial_keyword (task k : String)
    (hk : k ∈ lite_keywords) (hsub : strContains (pyLower task) k = true) :
    should_use_lite_mode task = true := by
  have h : lite_keywords.any (fun k => strContains (pyLower task) k) = true :=
    List.any_eq_true.mpr ⟨k, hk, hsub⟩
  simp [should_use_lite_mode, h]

/-- Witness for C9 at the task `Fix TYPO in README` and the keyword
`typo`. -/
theorem should_use_lite_mode_trivial_keyword_witness :
    should_use_lite_mode "Fix TYPO in README" = true :=
  should_use_lite_mode_trivial_keyword _ "typo" (by decide) (by decide)

/-- C3, counterexample: the short task `rename security` contains the
complexity keyword `security`, yet the mode selector returns LITE (`true`),
because the trivial-edit keyword `rename` is checked first and wins.  The
claim predicts FULL (`false`) for every short task containing a complexity
keyword. -/
theorem should_use_lite_mode_short_complexity_counterexample :
    pyLen "rename security" < 50 ∧
    "security" ∈ complexity_indicators ∧
    strContains (pyLower "rename security") "security" = true ∧
    should_use_lite_mode "rename security" = true :=
  ⟨by decide, by decide, by decide, by decide⟩

/-- C3, amended: for every task string shorter than the 50-character
threshold that contains a complexity keyword and contains no trivial-edit
keyword, `should_use_lite_mode` returns FULL (`false`). -/
theorem should_use_lite_mode_short_complexity (task : String)
    (hnolite : ∀ k ∈ lite_keywords, strContains (pyLower task) k = false)
    (hshort : pyLen task < 50)
    (hcomp : ∃ k ∈ complexity_indicators, strContains (pyLower task) k = true) :
    should_use_lite_mode task = false := by
  have h1 : lite_keywords.any (fun k => strContains (pyLower task) k) = false := by
    rw [List.any_eq_false]
    intro k hk
    simp [hnolite k hk]
  have h2 : complexity_indicators.any (fun k => strContains (pyLower task) k) = true := by
    obtain ⟨k, hk, hc⟩ := hcomp
    exact List.any_eq_true.mpr ⟨k, hk, hc⟩
  simp [should_use_lite_mode, h1, hshort, h2]

/-- Witness for the amended C3 at the task `add security check`. -/
theorem should_use_lite_mode_short_complexity_witness :
    should_use_lite_mode "add security check" = false :=
  should_use_lite_mode_short_complexity _ (by decide) (by decide) (by decide)

/-! ## Result model claims -/

/-- C4, counterexample: an agent payload with the unrecognized status value
`weird` is stored verbatim by `from_json`; the constructed status field is
`weird`, not the `unknown` the claim requires for values outside the
documented status set. -/
theorem from_json_unrecognized_status_counterexample :
    (PolecatResult.from_json [("status", JsonVal.str "weird")]).status
      = JsonVal.str "weird" ∧
    JsonVal.str "weird" ≠ JsonVal.str "unknown" :=
  ⟨rfl, by simp⟩

/-- C4, amended: the constructed status field is `unknown` exactly when the
agent omits the status field; a present value — recognized or not — is
passed through unchanged, with no validation against the status set. -/
theorem from_json_status_field (data : List (String × JsonVal)) :
    (dictLookup data "status" = none →
      (PolecatResult.from_json data).status = JsonVal.str "unknown") ∧
    (∀ v, dictLookup data "status" = some v →
      (PolecatResult.from_json data).status = v) := by
  constructor
  · intro h
    simp [PolecatResult.from_json, dictGet, h]
  · intro v h
    simp [PolecatResult.from_json, dictGet, h]

/-- Witness for the amended C4: the empty payload defaults to `unknown`,
and a present `partial` value is passed through. -/
theorem from_json_status_field_witness :
    (PolecatResult.from_json []).status = JsonVal.str "unknown" ∧
    (PolecatResult.from_json [("status", JsonVal.str "partial")]).status
      = JsonVal.str "partial" :=
  ⟨(from_json_status_field []).1 rfl, (from_json_status_field _).2 _ rfl⟩

/-- C5: result construction succeeds on every decoded JSON object (only a
non-object makes `from_json` raise), and the empty object yields exactly
the documented defaults: status `unknown`, success `false`, iterations `0`,
converged `false`, duration `0.0`, empty files/gates/issues/punted/summary,
and null error, message and decomposition. -/
theorem from_json_defaults :
    (∀ kvs, PolecatResult.from_json_value (JsonVal.obj kvs)
        = Except.ok (PolecatResult.from_json kvs)) ∧
    PolecatResult.from_json [] =
      { status := JsonVal.str "unknown", success := JsonVal.bool false,
        iterations := JsonVal.num 0, converged := JsonVal.bool false,
        duration_seconds := JsonVal.num 0, files_modified := JsonVal.arr [],
        quality_gates := JsonVal.obj [], discovered_issues := JsonVal.arr [],
        punted_items := JsonVal.arr [], summary := JsonVal.str "",
        error := JsonVal.null, message := JsonVal.null,
        decomposition := JsonVal.null } :=
  ⟨fun _ => rfl, rfl⟩

/-! ## Agent invoker claim -/

/-- C2, counterexample: a non-zero exit whose stdout is the single opening
brace — not a JSON object — does not produce `AgentExecutionFailed` as the
claim requires: the code only tests whether the stripped stdout starts with
a brace, so it proceeds to JSON parsing and raises `InvalidAgentOutput`
instead. -/
theorem run_vc_brace_heuristic_counterexample :
    run_vc { vcFound := true, returncode := 1, stdout := "\x7b",
             stderrText := "boom", jsonParse := none }
        "task" none false false false
      = Except.error (PyErr.invalidAgentOutput "\x7b") ∧
    PyErr.invalidAgentOutput "\x7b" ≠ PyErr.agentExecutionFailed "boom" :=
  ⟨rfl, by decide⟩

/-- C2, amended: `run_vc` fails with `AgentExecutionFailed` exactly when
the process exits non-zero and its stripped stdout does not start with an
opening brace (the code's approximation of "stdout is not a JSON object");
when that test is passed — exit zero, or stdout starting with a brace —
stdout parsing decides: a decoded JSON object yields a parsed Result even
on non-zero exit, and a JSON parse failure yields `InvalidAgentOutput`. -/
theorem run_vc_error_taxonomy (env : AgentEnv) (task : String)
    (issue_id : Option String) (from_stdin lite_mode force_lite : Bool)
    (hfound : env.vcFound = true) :
    (env.returncode ≠ 0 → startsWithBrace (pyStrip env.stdout) = false →
      run_vc env task issue_id from_stdin lite_mode force_lite
        = Except.error (PyErr.agentExecutionFailed env.stderrText)) ∧
    (∀ kvs, env.jsonParse = some (JsonVal.obj kvs) →
      (env.returncode = 0 ∨ startsWithBrace (pyStrip env.stdout) = true) →
      run_vc env task issue_id from_stdin lite_mode force_lite
        = Except.ok (PolecatResult.from_json kvs)) ∧
    (env.jsonParse = none →
      (env.returncode = 0 ∨ startsWithBrace (pyStrip env.stdout) = true) →
      run_vc env task issue_id from_stdin lite_mode force_lite
        = Except.error (PyErr.invalidAgentOutput (pyTake env.stdout 500))) := by
  refine ⟨?_, ?_, ?_⟩
  · intro h1 h2
    have h1' : (env.returncode != 0) = true := by simpa using h1
    simp [run_vc, hfound, h1', h2]
  · intro kvs hparse hdisj
    have hcond : (env.returncode != 0 && !(startsWithBrace (pyStrip env.stdout)))
        = false := by
      rcases hdisj with h | h <;> simp [h]
    simp [run_vc, hfound, hcond, hparse, PolecatResult.from_json_value]
  · intro hparse hdisj
    have hcond : (env.returncode != 0 && !(startsWithBrace (pyStrip env.stdout)))
        = false := by
      rcases hdisj with h | h <;> simp [h]
    simp [run_vc, hfound, hcond, hparse]

/-- Witness for the amended C2: a non-zero exit with non-JSON stdout is the
`AgentExecutionFailed` runtime error carrying the captured stderr. -/
theorem run_vc_error_taxonomy_witness :
    run_vc { vcFound := true, returncode := 2, stdout := "no json here",
             stderrText := "boom", jsonParse := none }
        "t" none false false false
      = Except.error (PyErr.agentExecutionFailed "boom") :=
  (run_vc_error_taxonomy _ "t" none false false false rfl).1
    (by decide) (by decide)

/-! ## Repository committer claims -/

/-- C6: for every Result whose `files_modified` sequence is empty,
`commit_and_merge` returns `merged=true`, issues zero version-control
commands, and leaves the working branch untouched. -/
theorem commit_and_merge_no_files (env : GitEnv) (task : String)
    (r : PolecatResult) (hfiles : r.files_modified = JsonVal.arr []) :
    commit_and_merge env task r =
      { ret := Except.ok true, trace := [], branch := env.branch0 } := by
  simp [commit_and_merge, hfiles, pyTruthy]

/-- Witness for C6 at an all-defaults Result (empty `files_modified`). -/
theorem commit_and_merge_no_files_witness :
    commit_and_merge
        { branch0 := "work", addOk := true, commitOutcome := none,
          checkoutMainOk := true, mergeOk := true, pushOk := true }
        "t" (PolecatResult.from_json [])
      = { ret := Except.ok true, trace := [], branch := "work" } :=
  commit_and_merge_no_files _ _ _ rfl

/-- C7: with non-empty `files_modified` and a commit command that fails
reporting `nothing to commit`, `commit_and_merge` returns `merged=true`
without raising, having issued only the stage and commit commands; any
commit failure whose stderr does not mention `nothing to commit` propagates
as an exception. -/
theorem commit_and_merge_nothing_to_commit (env : GitEnv) (task : String)
    (r : PolecatResult) (stderr : String)
    (hfiles : pyTruthy r.files_modified = true)
    (hadd : env.addOk = true)
    (hcommit : env.commitOutcome = some stderr) :
    (strContains stderr "nothing to commit" = true →
      commit_and_merge env task r =
        { ret := Except.ok true,
          trace := [["git", "add", "-A"],
                    ["git", "commit", "-m", commit_msg_of task]],
          branch := env.branch0 }) ∧
    (strContains stderr "nothing to commit" = false →
      (commit_and_merge env task r).ret
        = Except.error (PyErr.calledProcessError
            ["git", "commit", "-m", commit_msg_of task])) := by
  constructor
  · intro h
    simp [commit_and_merge, hfiles, hadd, hcommit, h]
  · intro h
    simp [commit_and_merge, hfiles, hadd, hcommit, h]

/-- Witness for C7: the benign `nothing to commit` failure returns
`merged=true` after exactly stage and commit; a different commit failure
propagates as `CalledProcessError`. -/
theorem commit_and_merge_nothing_to_commit_witness :
    commit_and_merge
        { branch0 := "dev", addOk := true,
          commitOutcome := some "nothing to commit, working tree clean",
          checkoutMainOk := true, mergeOk := true, pushOk := true }
        "t" (PolecatResult.from_json [("files_modified", JsonVal.arr [JsonVal.str "a"])])
      = { ret := Except.ok true,
          trace := [["git", "add", "-A"], ["git", "commit", "-m", "VC: t"]],
          branch := "dev" } ∧
    (commit_and_merge
        { branch0 := "dev", addOk := true,
          commitOutcome := some "fatal: bad object",
          checkoutMainOk := true, mergeOk := true, pushOk := true }
        "t" (PolecatResult.from_json [("files_modified", JsonVal.arr [JsonVal.str "a"])])).ret
      = Except.error (PyErr.calledProcessError ["git", "commit", "-m", "VC: t"]) :=
  ⟨(commit_and_merge_nothing_to_commit
      { branch0 := "dev", addOk := true,
        commitOutcome := some "nothing to commit, working tree clean",
        checkoutMainOk := true, mergeOk := true, pushOk := true }
      "t" (PolecatResult.from_json [("files_modified", JsonVal.arr [JsonVal.str "a"])])
      "nothing to commit, working tree clean" (by decide) rfl rfl).1 (by decide),
   (commit_and_merge_nothing_to_commit
      { branch0 := "dev", addOk := true,
        commitOutcome := some "fatal: bad object",
        checkoutMainOk := true, mergeOk := true, pushOk := true }
      "t" (PolecatResult.from_json [("files_modified", JsonVal.arr [JsonVal.str "a"])])
      "fatal: bad object" (by decide) rfl rfl).2 (by decide)⟩

/-- C1: with non-empty `files_modified`, when staging and commit succeed
and the merge of the recorded branch into `main` fails, `commit_and_merge`
returns `merged=false` without raising, and the branch checked out when the
call returns is the branch that was active when it began. -/
theorem commit_and_merge_conflict_recovery (env : GitEnv) (task : String)
    (r : PolecatResult)
    (hfiles : pyTruthy r.files_modified = true)
    (hadd : env.addOk = true)
    (hcommit : env.commitOutcome = none)
    (hco : env.checkoutMainOk = true)
    (hmerge : env.mergeOk = false) :
    (commit_and_merge env task r).ret = Except.ok false ∧
    (commit_and_merge env task r).branch = env.branch0 := by
  constructor <;> simp [commit_and_merge, hfiles, hadd, hcommit, hco, hmerge]

/-- Witness for C1 at a concrete merge-conflict environment. -/
theorem commit_and_merge_conflict_recovery_witness :
    (commit_and_merge
        { branch0 := "gastown-polecat", addOk := true, commitOutcome := none,
          checkoutMainOk := true, mergeOk := false, pushOk := true }
        "Fix typo"
        (PolecatResult.from_json [("files_modified", JsonVal.arr [JsonVal.str "README.md"])])).ret
      = Except.ok false ∧
    (commit_and_merge
        { branch0 := "gastown-polecat", addOk := true, commitOutcome := none,
          checkoutMainOk := true, mergeOk := false, pushOk := true }
        "Fix typo"
        (PolecatResult.from_json [("files_modified", JsonVal.arr [JsonVal.str "README.md"])])).branch
      = "gastown-polecat" :=
  commit_and_merge_conflict_recovery _ _ _ rfl rfl rfl rfl rfl

/-- C10: whenever `commit_and_merge` returns normally — empty-files path,
benign `nothing to commit` path, merge-conflict path, or merge-success path
with or without a push failure — the branch checked out at return equals
the branch that was active when the call began. -/
theorem commit_and_merge_branch_restoration (env : GitEnv) (task : String)
    (r : PolecatResult) (b : Bool)
    (h : (commit_and_merge env task r).ret = Except.ok b) :
    (commit_and_merge env task r).branch = env.branch0 := by
  clear h
  cases hf : pyTruthy r.files_modified <;>
    cases ha : env.addOk <;>
    rcases hc : env.commitOutcome with _ | stderr <;>
    cases hm : env.checkoutMainOk <;>
    cases hg : env.mergeOk <;>
    simp [commit_and_merge, hf, ha, hc, hm, hg] <;>
    split <;> rfl

/-- Witness for C10 on the merge-success path (commit, merge and push all
succeed): control returns to the original branch. -/
theorem commit_and_merge_branch_restoration_witness :
    (commit_and_merge
        { branch0 := "feat", addOk := true, commitOutcome := none,
          checkoutMainOk := true, mergeOk := true, pushOk := true }
        "t" (PolecatResult.from_json [("files_modified", JsonVal.arr [JsonVal.str "a"])])).branch
      = "feat" :=
  commit_and_merge_branch_restoration
    { branch0 := "feat", addOk := true, commitOutcome := none,
      checkoutMainOk := true, mergeOk := true, pushOk := true }
    "t" (PolecatResult.from_json [("files_modified", JsonVal.arr [JsonVal.str "a"])])
    true rfl

/-! ## Orchestrator claim -/

/-- Helper: in dry-run mode `handle_task` performs the agent invocation and
nothing else — it returns exactly the agent outcome and a one-entry trace. -/
theorem handle_task_dry_eval (env : OrchEnv) (task : String)
    (issue_id : Option String) (from_stdin lite_mode : Bool)
    (message_id : Option String) :
    handle_task env task issue_id from_stdin lite_mode message_id true
      = (run_vc env.agent task issue_id from_stdin lite_mode false,
         [ExtCall.vc (build_cmd task issue_id from_stdin lite_mode false)]) := by
  unfold handle_task
  cases run_vc env.agent task issue_id from_stdin lite_mode false <;> simp

/-- Helper: a normal return of `handle_task` always carries the agent
result unchanged, in any mode. -/
theorem handle_task_ok_inversion (env : OrchEnv) (task : String)
    (issue_id : Option String) (from_stdin lite_mode : Bool)
    (message_id : Option String) (dry_run : Bool) (r : PolecatResult)
    (h : (handle_task env task issue_id from_stdin lite_mode message_id dry_run).1
        = Except.ok r) :
    run_vc env.agent task issue_id from_stdin lite_mode false = Except.ok r := by
  unfold handle_task at h
  cases hrv : run_vc env.agent task issue_id from_stdin lite_mode false with
  | error e => rw [hrv] at h; simp at h
  | ok res =>
    rw [hrv] at h
    simp only [] at h
    rcases h2 : (if pyTruthy res.discovered_issues && !dry_run then
        create_discovered_issues env.bdFound env.bdResp res
      else (Except.ok [], [])) with ⟨r2, tr2⟩
    rw [h2] at h
    cases r2 with
    | error e => simp at h
    | ok ids =>
      rcases h3 : (if pyTruthy res.success && pyEqStr res.status "completed"
          && !dry_run then
          let g := commit_and_merge env.git task res
          (g.ret, g.trace.map ExtCall.git)
        else (Except.ok false, [])) with ⟨r3, tr3⟩
      rw [h3] at h
      cases r3 with
      | error e => simp at h
      | ok b =>
        simp at h
        rw [h]

/-- C8, counterexample: with the agent reporting a successful, completed
run that modified a file, and a git environment whose `git add -A` fails,
the dry run exits with status 0 while the same run without dry-run
propagates the staging error and exits with status 1 — so the claim's
unconditional "reported success and exit code unchanged" fails. -/
theorem handle_task_dry_run_counterexample :
    exit_code (handle_task orch_env_add_fails "Fix typo" none false false none true).1 = 0 ∧
    exit_code (handle_task orch_env_add_fails "Fix typo" none false false none false).1 = 1 :=
  ⟨rfl, rfl⟩

/-- C8, amended: for every run with dry-run set, the agent is still
invoked but zero issue-creation calls, zero version-control calls, and
zero notifier calls are made; and whenever the same run without dry-run
returns normally (no fatal error in its external steps), the dry run
returns the same Result and the reported exit code is unchanged. -/
theorem handle_task_dry_run (env : OrchEnv) (task : String)
    (issue_id : Option String) (from_stdin lite_mode : Bool)
    (message_id : Option String) :
    (handle_task env task issue_id from_stdin lite_mode message_id true).2
      = [ExtCall.vc (build_cmd task issue_id from_stdin lite_mode false)] ∧
    (∀ r, (handle_task env task issue_id from_stdin lite_mode message_id false).1
        = Except.ok r →
      (handle_task env task issue_id from_stdin lite_mode message_id true).1
        = Except.ok r ∧
      exit_code (handle_task env task issue_id from_stdin lite_mode message_id true).1
        = exit_code (handle_task env task issue_id from_stdin lite_mode message_id false).1) := by
  constructor
  · rw [handle_task_dry_eval]
  · intro r h
    have hrv := handle_task_ok_inversion env task issue_id from_stdin lite_mode
      message_id false r h
    constructor
    · rw [handle_task_dry_eval, hrv]
    · rw [handle_task_dry_eval, hrv, h]

/-- Witness for the amended C8 at a fully successful concrete run: the dry
run's trace is the single agent invocation (lite mode selected by the
`typo` keyword), and since the non-dry run returns normally, the dry run
returns the same Result with the same exit code. -/
theorem handle_task_dry_run_witness :
    (handle_task orch_env_ok "Fix typo" none false false (some "msg-1") true).2
      = [ExtCall.vc ["vc", "exec", "--polecat-mode", "--lite", "--task", "Fix typo"]] ∧
    (handle_task orch_env_ok "Fix typo" none false false (some "msg-1") true).1
      = Except.ok (PolecatResult.from_json
          [("status", JsonVal.str "completed"),
           ("success", JsonVal.bool true),
           ("files_modified", JsonVal.arr [JsonVal.str "README.md"]),
           ("summary", JsonVal.str "fixed typo")]) :=
  ⟨(handle_task_dry_run orch_env_ok "Fix typo" none false false (some "msg-1")).1,
   ((handle_task_dry_run orch_env_ok "Fix typo" none false false (some "msg-1")).2
      _ rfl).1⟩
